import Mathlib

/-!
Shallow embedding of `src/cupoch/geometry/kdtree_flann.cu` (cupoch), the
KDTreeFlann spatial-index orchestration layer: build (`SetRawData`,
`SetGeometry`) and the three search families (`SearchKNN`, `SearchRadius`,
`SearchHybrid`) plus the `Search` dispatcher and the single-query overloads.

Modelling choices:
- Floating point coordinates, radii and distances are modelled as rationals
  (`ℚ`): the only arithmetic this layer performs on them is `radius * radius`,
  whose algebraic behaviour (in particular sign cancellation) agrees with
  IEEE multiplication.
- The external FLANN engine (index construction, `knnSearch`, `radiusSearch`)
  is an oracle: an `Engine` record of uninterpreted functions. The engine
  reports a match count (a non-negative number), and fills the caller-resized
  result buffers position by position; both are fields of the oracle.
- A `device_vector<T>` of Eigen fixed-size vectors is a `List (List ℚ)`
  together with the compile-time dimension `tdim` (= `T::RowsAtCompileTime`
  = `T::SizeAtCompileTime` = `query[0].size()` for fixed-size Eigen types).
- `dimension_` and `dataset_size_` are `size_t` in the class, hence `Nat`;
  the source test `dataset_size_ <= 0` is kept literally as `≤ 0`.
- Each search result carries an `engineCalled` flag recording whether the
  engine search primitive was invoked on that call (the source either takes
  an early `return -1` before touching `flann_index_`, or calls the engine).
-/

namespace Cupoch

/-- Padded 4-component point layout (`float4_t`), as produced by
`convert_float4_functor`. -/
structure Float4 where
  x : ℚ
  y : ℚ
  z : ℚ
  w : ℚ
deriving DecidableEq, Repr

/-- Embedding of `convert_float4_functor<Dim>::operator()`: the dim-3
specialization maps `(x,y,z)` to `(x,y,z,0)` and the dim-2 specialization
maps `(x,y)` to `(x,y,0,0)`; missing components are zero-filled. -/
def convert_float4 (p : List ℚ) : Float4 :=
  ⟨p.getD 0 0, p.getD 1 0, p.getD 2 0, 0⟩

/-- State of a `KDTreeFlann` object. `flann_dataset_` models the
`flann::Matrix` view over the padded buffer and `flann_index_` the built
`KDTreeCuda3dIndex` (each recorded as the padded data it was built over;
`none` is a null `unique_ptr`). Field defaults give the default-constructed
(`Empty`) object. -/
structure KDTreeFlann where
  dimension_ : Nat := 0
  dataset_size_ : Nat := 0
  data_ : List Float4 := []
  flann_dataset_ : Option (List Float4) := none
  flann_index_ : Option (List Float4) := none
deriving DecidableEq, Repr

/-- The default-constructed index object (`KDTreeFlann::KDTreeFlann()`). -/
def KDTreeFlann.empty : KDTreeFlann := {}

/-- Oracle for the external FLANN engine. `knnRet q knn` is the match count
reported by `flann::Index::knnSearch` on query buffer `q` with neighbor
count `knn`; `knnIdx q knn i` / `knnDist q knn i` are the values the engine
writes at flat position `i` of the caller-resized index/distance buffers.
`radiusRet q r2 m` is the match count of `flann::Index::radiusSearch` with
squared radius `r2` and `max_neighbors` `m`, with `radiusIdx` / `radiusDist`
its buffer writes. Match counts are `Nat`: the engine reports how many
neighbors were found, a non-negative number. -/
structure Engine where
  knnRet : List Float4 → Int → Nat
  knnIdx : List Float4 → Int → Nat → Int
  knnDist : List Float4 → Int → Nat → ℚ
  radiusRet : List Float4 → ℚ → Int → Nat
  radiusIdx : List Float4 → ℚ → Int → Nat → Int
  radiusDist : List Float4 → ℚ → Int → Nat → ℚ

/-- A trivial engine instance, used to evaluate the embedding on concrete
inputs. -/
def Engine.triv : Engine :=
  ⟨fun _ _ => 0, fun _ _ _ => 0, fun _ _ _ => 0,
   fun _ _ _ => 0, fun _ _ _ _ => 0, fun _ _ _ _ => 0⟩

/-- Outcome of one batch search call: the returned `int`, the final contents
of the caller's `indices` and `distance2` buffers, and whether the engine
search primitive was invoked. -/
structure SearchResult where
  ret : Int
  indices : List Int
  distance2 : List ℚ
  engineCalled : Bool
deriving DecidableEq, Repr

/-- Embedding of `KDTreeFlann::SearchKNN` (batch form, lines 100-131).
`nmax` is the header constant `NUM_MAX_NN`; `tdim` is the compile-time
dimension of the query point type `T`; `indices`/`distance2` are the
caller's in-out buffers. -/
def SearchKNN (E : Engine) (nmax : Int) (tdim : Nat)
    (query : List (List ℚ)) (knn : Int) (t : KDTreeFlann)
    (indices : List Int) (distance2 : List ℚ) : SearchResult :=
  if t.data_ = [] ∨ query = [] ∨ t.dataset_size_ ≤ 0 ∨ knn < 0 ∨ knn > nmax then
    ⟨-1, indices, distance2, false⟩
  else if tdim ≠ t.dimension_ then
    ⟨-1, indices, distance2, false⟩
  else
    let query_f4 := query.map convert_float4
    let total_size := query.length * knn.toNat
    ⟨(E.knnRet query_f4 knn : Int),
     (List.range total_size).map (E.knnIdx query_f4 knn),
     (List.range total_size).map (E.knnDist query_f4 knn),
     true⟩

/-- Embedding of `KDTreeFlann::SearchRadius` (batch form, lines 133-163):
no `knn` bound checks, result width `NUM_MAX_NN`, engine receives the
squared radius and `max_neighbors = NUM_MAX_NN`. -/
def SearchRadius (E : Engine) (nmax : Int) (tdim : Nat)
    (query : List (List ℚ)) (radius : ℚ) (t : KDTreeFlann)
    (indices : List Int) (distance2 : List ℚ) : SearchResult :=
  if t.data_ = [] ∨ query = [] ∨ t.dataset_size_ ≤ 0 then
    ⟨-1, indices, distance2, false⟩
  else if tdim ≠ t.dimension_ then
    ⟨-1, indices, distance2, false⟩
  else
    let query_f4 := query.map convert_float4
    let total_size := query.length * nmax.toNat
    ⟨(E.radiusRet query_f4 (radius * radius) nmax : Int),
     (List.range total_size).map (E.radiusIdx query_f4 (radius * radius) nmax),
     (List.range total_size).map (E.radiusDist query_f4 (radius * radius) nmax),
     true⟩

/-- Embedding of `KDTreeFlann::SearchHybrid` (batch form, lines 165-197):
adds the `max_nn < 0` guard, result width `max_nn`, engine receives the
squared radius and `max_neighbors = max_nn`. -/
def SearchHybrid (E : Engine) (_nmax : Int) (tdim : Nat)
    (query : List (List ℚ)) (radius : ℚ) (max_nn : Int) (t : KDTreeFlann)
    (indices : List Int) (distance2 : List ℚ) : SearchResult :=
  if t.data_ = [] ∨ query = [] ∨ t.dataset_size_ ≤ 0 ∨ max_nn < 0 then
    ⟨-1, indices, distance2, false⟩
  else if tdim ≠ t.dimension_ then
    ⟨-1, indices, distance2, false⟩
  else
    let query_f4 := query.map convert_float4
    let total_size := query.length * max_nn.toNat
    ⟨(E.radiusRet query_f4 (radius * radius) max_nn : Int),
     (List.range total_size).map (E.radiusIdx query_f4 (radius * radius) max_nn),
     (List.range total_size).map (E.radiusDist query_f4 (radius * radius) max_nn),
     true⟩

/-- Modelled from the spec: the search-type tag carried by
`KDTreeSearchParam` (declared in `kdtree_flann.h`, not under `src/`); the
spec describes a tagged variant over KNN / Radius / Hybrid, and the source
switch has a `default` branch for any other tag value, modelled by
`Unknown`. -/
inductive SearchType where
  | Knn
  | Radius
  | Hybrid
  | Unknown
deriving DecidableEq, Repr

/-- Modelled from the spec: `KDTreeSearchParam` and its subclasses
(declared in `kdtree_flann.h`, not under `src/`). The source dispatches on
`GetSearchType()` and downcasts to read `knn_`, `radius_`, `max_nn_`; the
flat record carries the tag and all three payload fields. -/
structure KDTreeSearchParam where
  search_type_ : SearchType
  knn_ : Int
  radius_ : ℚ
  max_nn_ : Int
deriving DecidableEq, Repr

/-- Embedding of the batch `KDTreeFlann::Search` dispatcher (lines 76-98). -/
def Search (E : Engine) (nmax : Int) (tdim : Nat)
    (query : List (List ℚ)) (param : KDTreeSearchParam) (t : KDTreeFlann)
    (indices : List Int) (distance2 : List ℚ) : SearchResult :=
  match param.search_type_ with
  | SearchType.Knn => SearchKNN E nmax tdim query param.knn_ t indices distance2
  | SearchType.Radius =>
      SearchRadius E nmax tdim query param.radius_ t indices distance2
  | SearchType.Hybrid =>
      SearchHybrid E nmax tdim query param.radius_ param.max_nn_ t indices
        distance2
  | SearchType.Unknown => ⟨-1, indices, distance2, false⟩

/-- Embedding of `KDTreeFlann::SetRawData` (lines 199-219): `dimension_`
and `dataset_size_` are assigned before the emptiness test; on success the
padded copy, the `flann::Matrix` view and the freshly built
`KDTreeCuda3dIndex` replace the previous ones. -/
def SetRawData (tdim : Nat) (data : List (List ℚ)) (t : KDTreeFlann) :
    Bool × KDTreeFlann :=
  let t1 : KDTreeFlann := { t with dimension_ := tdim, dataset_size_ := data.length }
  if t1.dimension_ = 0 ∨ t1.dataset_size_ = 0 then
    (false, t1)
  else
    let d4 := data.map convert_float4
    (true, { t1 with data_ := d4, flann_dataset_ := some d4, flann_index_ := some d4 })

/-- Modelled from the spec: the geometry-kind tag (declared in
`geometry.h`, not under `src/`). The source switch names `PointCloud`,
`TriangleMesh`, `Image`, `Unspecified` and has a `default` branch for the
remaining kinds, modelled by `Other`. -/
inductive GeometryType where
  | PointCloud
  | TriangleMesh
  | Image
  | Unspecified
  | Other
deriving DecidableEq, Repr

/-- Modelled from the spec: a geometry collaborator supplying its kind tag
and its point buffers (`PointCloud::points_`, `TriangleMesh::vertices_`,
both buffers of 3D points). -/
structure Geometry where
  geometry_type_ : GeometryType
  points_ : List (List ℚ)
  vertices_ : List (List ℚ)

/-- Embedding of `KDTreeFlann::SetGeometry` (lines 61-74): point clouds and
meshes (whose points are `Eigen::Vector3f`, so `tdim = 3`) are forwarded to
`SetRawData`; every other kind logs a warning and returns `false` without
touching the object. -/
def SetGeometry (g : Geometry) (t : KDTreeFlann) : Bool × KDTreeFlann :=
  match g.geometry_type_ with
  | GeometryType.PointCloud => SetRawData 3 g.points_ t
  | GeometryType.TriangleMesh => SetRawData 3 g.vertices_ t
  | _ => (false, t)

/-- Embedding of the single-query `KDTreeFlann::Search` overload (lines
221-233): wraps the point into a one-element device vector, calls the batch
form on fresh empty buffers, and copies the results out. -/
def Search_single (E : Engine) (nmax : Int) (tdim : Nat) (q : List ℚ)
    (param : KDTreeSearchParam) (t : KDTreeFlann) :
    Int × List Int × List ℚ :=
  let r := Search E nmax tdim [q] param t [] []
  (r.ret, r.indices, r.distance2)

/-- Embedding of the single-query `KDTreeFlann::SearchKNN` overload (lines
235-247). -/
def SearchKNN_single (E : Engine) (nmax : Int) (tdim : Nat) (q : List ℚ)
    (knn : Int) (t : KDTreeFlann) : Int × List Int × List ℚ :=
  let r := SearchKNN E nmax tdim [q] knn t [] []
  (r.ret, r.indices, r.distance2)

/-- Embedding of the single-query `KDTreeFlann::SearchRadius` overload
(lines 249-261). -/
def SearchRadius_single (E : Engine) (nmax : Int) (tdim : Nat) (q : List ℚ)
    (radius : ℚ) (t : KDTreeFlann) : Int × List Int × List ℚ :=
  let r := SearchRadius E nmax tdim [q] radius t [] []
  (r.ret, r.indices, r.distance2)

/-- Embedding of the single-query `KDTreeFlann::SearchHybrid` overload
(lines 263-277). -/
def SearchHybrid_single (E : Engine) (nmax : Int) (tdim : Nat) (q : List ℚ)
    (radius : ℚ) (max_nn : Int) (t : KDTreeFlann) : Int × List Int × List ℚ :=
  let r := SearchHybrid E nmax tdim [q] radius max_nn t [] []
  (r.ret, r.indices, r.distance2)

/-- A concrete built index over three 3D points, used by witnesses. -/
def tBuilt : KDTreeFlann :=
  (SetRawData 3 [[0, 0, 0], [1, 0, 0], [0, 1, 0]] KDTreeFlann.empty).2

/-- Shared helper: an empty ingest fails, leaving every field unchanged
except `dimension_` (overwritten with the new point dimension) and
`dataset_size_` (overwritten with 0), which are assigned before the
emptiness test. -/
lemma setRawData_nil (tdim : Nat) (t : KDTreeFlann) :
    SetRawData tdim [] t =
      (false, { t with dimension_ := tdim, dataset_size_ := 0 }) := by
  simp [SetRawData]

/-- Shared helper: with an empty padded buffer, `SearchKNN` fails without
calling the engine. -/
lemma searchKNN_data_nil (E : Engine) (nmax : Int) (tdim : Nat)
    (query : List (List ℚ)) (knn : Int) (t : KDTreeFlann)
    (indices : List Int) (distance2 : List ℚ) (h : t.data_ = []) :
    SearchKNN E nmax tdim query knn t indices distance2 =
      ⟨-1, indices, distance2, false⟩ := by
  simp [SearchKNN, h]

/-- Shared helper: with an empty padded buffer, `SearchRadius` fails
without calling the engine. -/
lemma searchRadius_data_nil (E : Engine) (nmax : Int) (tdim : Nat)
    (query : List (List ℚ)) (radius : ℚ) (t : KDTreeFlann)
    (indices : List Int) (distance2 : List ℚ) (h : t.data_ = []) :
    SearchRadius E nmax tdim query radius t indices distance2 =
      ⟨-1, indices, distance2, false⟩ := by
  simp [SearchRadius, h]

/-- Shared helper: with an empty padded buffer, `SearchHybrid` fails
without calling the engine. -/
lemma searchHybrid_data_nil (E : Engine) (nmax : Int) (tdim : Nat)
    (query : List (List ℚ)) (radius : ℚ) (max_nn : Int) (t : KDTreeFlann)
    (indices : List Int) (distance2 : List ℚ) (h : t.data_ = []) :
    SearchHybrid E nmax tdim query radius max_nn t indices distance2 =
      ⟨-1, indices, distance2, false⟩ := by
  simp [SearchHybrid, h]

/-- Shared helper: with an empty padded buffer, the `Search` dispatcher
fails without calling the engine, for every parameter tag. -/
lemma search_data_nil (E : Engine) (nmax : Int) (tdim : Nat)
    (query : List (List ℚ)) (param : KDTreeSearchParam) (t : KDTreeFlann)
    (indices : List Int) (distance2 : List ℚ) (h : t.data_ = []) :
    Search E nmax tdim query param t indices distance2 =
      ⟨-1, indices, distance2, false⟩ := by
  cases hp : param.search_type_ <;>
    simp [Search, hp, searchKNN_data_nil, searchRadius_data_nil,
      searchHybrid_data_nil, h]

/-- C1, counterexample: build an index over three points (`dataset_size_`
is 3), then call `SetRawData` with an empty point set. The call fails, but
`dataset_size_` is overwritten to 0 — the index object does not retain the
state it had before the failing call. -/
theorem c1_counterexample :
    (SetRawData 3 [] tBuilt).1 = false ∧
    (SetRawData 3 [] tBuilt).2.dataset_size_ ≠ tBuilt.dataset_size_ := by
  refine ⟨by rw [setRawData_nil], ?_⟩
  rw [setRawData_nil]
  decide

/-- C1, amended: if build is called with an empty point set it fails
(returns false) and leaves the padded data buffer, the dataset view and
the engine index handle unmodified — but `dimension_` is overwritten with
the new point dimension and `dataset_size_` with 0, since both are
assigned before the emptiness test. -/
theorem c1_build_empty_partial_state (tdim : Nat) (t : KDTreeFlann) :
    SetRawData tdim [] t =
      (false, { t with dimension_ := tdim, dataset_size_ := 0 }) :=
  setRawData_nil tdim t

/-- Shared helper: when every guard passes, `SearchKNN` invokes the engine
and fills the resized buffers from it. -/
lemma searchKNN_success (E : Engine) (nmax : Int) (tdim : Nat)
    (query : List (List ℚ)) (knn : Int) (t : KDTreeFlann)
    (indices : List Int) (distance2 : List ℚ)
    (h1 : ¬(t.data_ = [] ∨ query = [] ∨ t.dataset_size_ ≤ 0 ∨ knn < 0 ∨
      knn > nmax))
    (h2 : tdim = t.dimension_) :
    SearchKNN E nmax tdim query knn t indices distance2 =
      ⟨(E.knnRet (query.map convert_float4) knn : Int),
       (List.range (query.length * knn.toNat)).map
         (E.knnIdx (query.map convert_float4) knn),
       (List.range (query.length * knn.toNat)).map
         (E.knnDist (query.map convert_float4) knn),
       true⟩ := by
  unfold SearchKNN
  rw [if_neg h1, if_neg (fun hk => hk h2)]

/-- C2: the batch `SearchKNN` returns the sentinel -1 exactly when the
padded buffer is empty or the dataset size is 0 (no index usable), the
query batch is empty, `knn` is negative, `knn` exceeds `NUM_MAX_NN`, or
the query dimension mismatches the index dimension; otherwise the result
tables are resized to total size `Q * knn` and the returned value is the
engine-reported match count. -/
theorem c2_searchKNN_sentinel_iff (E : Engine) (nmax : Int) (tdim : Nat)
    (query : List (List ℚ)) (knn : Int) (t : KDTreeFlann)
    (indices : List Int) (distance2 : List ℚ) :
    ((SearchKNN E nmax tdim query knn t indices distance2).ret = -1 ↔
      (t.data_ = [] ∨ query = [] ∨ t.dataset_size_ ≤ 0 ∨ knn < 0 ∨
        knn > nmax ∨ tdim ≠ t.dimension_)) ∧
    (¬(t.data_ = [] ∨ query = [] ∨ t.dataset_size_ ≤ 0 ∨ knn < 0 ∨
        knn > nmax ∨ tdim ≠ t.dimension_) →
      (SearchKNN E nmax tdim query knn t indices distance2).indices.length =
          query.length * knn.toNat ∧
      (SearchKNN E nmax tdim query knn t indices distance2).distance2.length =
          query.length * knn.toNat ∧
      (SearchKNN E nmax tdim query knn t indices distance2).ret =
          (E.knnRet (query.map convert_float4) knn : Int)) := by
  by_cases h1 : t.data_ = [] ∨ query = [] ∨ t.dataset_size_ ≤ 0 ∨ knn < 0 ∨
      knn > nmax
  · have he : SearchKNN E nmax tdim query knn t indices distance2 =
        ⟨-1, indices, distance2, false⟩ := by
      unfold SearchKNN
      rw [if_pos h1]
    rw [he]
    exact ⟨iff_of_true rfl (by tauto), fun hn => absurd (by tauto) hn⟩
  · by_cases h2 : tdim ≠ t.dimension_
    · have he : SearchKNN E nmax tdim query knn t indices distance2 =
          ⟨-1, indices, distance2, false⟩ := by
        unfold SearchKNN
        rw [if_neg h1, if_pos h2]
      rw [he]
      exact ⟨iff_of_true rfl (by tauto), fun hn => absurd (by tauto) hn⟩
    · rw [searchKNN_success E nmax tdim query knn t indices distance2 h1
        (not_not.mp h2)]
      have hnn : ((E.knnRet (query.map convert_float4) knn : Nat) : Int) ≠ -1 := by
        omega
      exact ⟨⟨fun hc => absurd hc hnn, fun hd => absurd hd (by tauto)⟩,
        fun _ => ⟨by simp, by simp, rfl⟩⟩

/-- C2, witness: a successful KNN call on the concrete built index. -/
theorem c2_witness :
    ¬(tBuilt.data_ = [] ∨ ([[0, 0, 0]] : List (List ℚ)) = [] ∨
        tBuilt.dataset_size_ ≤ 0 ∨ (1 : Int) < 0 ∨ (1 : Int) > 100 ∨
        3 ≠ tBuilt.dimension_) ∧
    (SearchKNN Engine.triv 100 3 [[0, 0, 0]] 1 tBuilt [] []).indices.length =
      ([[0, 0, 0]] : List (List ℚ)).length * (1 : Int).toNat :=
  ⟨by decide,
   ((c2_searchKNN_sentinel_iff Engine.triv 100 3 [[0, 0, 0]] 1 tBuilt [] []).2
      (by decide)).1⟩

/-- Shared helper: when every guard passes, `SearchRadius` invokes the
engine with the squared radius and `max_neighbors = NUM_MAX_NN`, filling
the buffers resized to width `NUM_MAX_NN`. -/
lemma searchRadius_success (E : Engine) (nmax : Int) (tdim : Nat)
    (query : List (List ℚ)) (radius : ℚ) (t : KDTreeFlann)
    (indices : List Int) (distance2 : List ℚ)
    (h1 : ¬(t.data_ = [] ∨ query = [] ∨ t.dataset_size_ ≤ 0))
    (h2 : tdim = t.dimension_) :
    SearchRadius E nmax tdim query radius t indices distance2 =
      ⟨(E.radiusRet (query.map convert_float4) (radius * radius) nmax : Int),
       (List.range (query.length * nmax.toNat)).map
         (E.radiusIdx (query.map convert_float4) (radius * radius) nmax),
       (List.range (query.length * nmax.toNat)).map
         (E.radiusDist (query.map convert_float4) (radius * radius) nmax),
       true⟩ := by
  unfold SearchRadius
  rw [if_neg h1, if_neg (fun hk => hk h2)]

/-- Shared helper: when every guard passes, `SearchHybrid` invokes the
engine with the squared radius and `max_neighbors = max_nn`, filling the
buffers resized to width `max_nn`. -/
lemma searchHybrid_success (E : Engine) (nmax : Int) (tdim : Nat)
    (query : List (List ℚ)) (radius : ℚ) (max_nn : Int) (t : KDTreeFlann)
    (indices : List Int) (distance2 : List ℚ)
    (h1 : ¬(t.data_ = [] ∨ query = [] ∨ t.dataset_size_ ≤ 0 ∨ max_nn < 0))
    (h2 : tdim = t.dimension_) :
    SearchHybrid E nmax tdim query radius max_nn t indices distance2 =
      ⟨(E.radiusRet (query.map convert_float4) (radius * radius) max_nn : Int),
       (List.range (query.length * max_nn.toNat)).map
         (E.radiusIdx (query.map convert_float4) (radius * radius) max_nn),
       (List.range (query.length * max_nn.toNat)).map
         (E.radiusDist (query.map convert_float4) (radius * radius) max_nn),
       true⟩ := by
  unfold SearchHybrid
  rw [if_neg h1, if_neg (fun hk => hk h2)]

/-- C3: whenever the compile-time query dimension differs from the
dimension recorded at build time, each of the three batch searches returns
the sentinel -1 and the engine search primitive is never invoked. -/
theorem c3_dim_mismatch_no_engine (E : Engine) (nmax : Int) (tdim : Nat)
    (query : List (List ℚ)) (knn : Int) (radius : ℚ) (max_nn : Int)
    (t : KDTreeFlann) (indices : List Int) (distance2 : List ℚ)
    (h : tdim ≠ t.dimension_) :
    ((SearchKNN E nmax tdim query knn t indices distance2).ret = -1 ∧
     (SearchKNN E nmax tdim query knn t indices distance2).engineCalled = false) ∧
    ((SearchRadius E nmax tdim query radius t indices distance2).ret = -1 ∧
     (SearchRadius E nmax tdim query radius t indices
        distance2).engineCalled = false) ∧
    ((SearchHybrid E nmax tdim query radius max_nn t indices distance2).ret = -1 ∧
     (SearchHybrid E nmax tdim query radius max_nn t indices
        distance2).engineCalled = false) := by
  refine ⟨?_, ?_, ?_⟩
  · unfold SearchKNN
    split_ifs <;> exact ⟨rfl, rfl⟩
  · unfold SearchRadius
    split_ifs <;> exact ⟨rfl, rfl⟩
  · unfold SearchHybrid
    split_ifs <;> exact ⟨rfl, rfl⟩

/-- C3, witness: a 2D query against the concrete 3D built index. -/
theorem c3_witness :
    (2 : Nat) ≠ tBuilt.dimension_ ∧
    (SearchKNN Engine.triv 100 2 [[0, 0]] 1 tBuilt [] []).ret = -1 :=
  ⟨by decide,
   ((c3_dim_mismatch_no_engine Engine.triv 100 2 [[0, 0]] 1 1 1 tBuilt [] []
      (by decide)).1).1⟩

/-- C4: building over an empty point set fails (returns false) and leaves
the engine index handle unset, and afterwards every batch search — KNN,
Radius, Hybrid, and the generic dispatcher with any parameter — returns
the sentinel -1 without invoking the engine search primitive. -/
theorem c4_empty_build_searches_fail (tdim0 : Nat) :
    (SetRawData tdim0 [] KDTreeFlann.empty).1 = false ∧
    (SetRawData tdim0 [] KDTreeFlann.empty).2.flann_index_ = none ∧
    (∀ (E : Engine) (nmax : Int) (tdim : Nat) (query : List (List ℚ))
       (knn : Int) (radius : ℚ) (max_nn : Int) (param : KDTreeSearchParam)
       (indices : List Int) (distance2 : List ℚ),
      SearchKNN E nmax tdim query knn
          (SetRawData tdim0 [] KDTreeFlann.empty).2 indices distance2 =
        ⟨-1, indices, distance2, false⟩ ∧
      SearchRadius E nmax tdim query radius
          (SetRawData tdim0 [] KDTreeFlann.empty).2 indices distance2 =
        ⟨-1, indices, distance2, false⟩ ∧
      SearchHybrid E nmax tdim query radius max_nn
          (SetRawData tdim0 [] KDTreeFlann.empty).2 indices distance2 =
        ⟨-1, indices, distance2, false⟩ ∧
      Search E nmax tdim query param
          (SetRawData tdim0 [] KDTreeFlann.empty).2 indices distance2 =
        ⟨-1, indices, distance2, false⟩) := by
  have hnil : (SetRawData tdim0 [] KDTreeFlann.empty).2.data_ = [] := by
    rw [setRawData_nil]
    rfl
  refine ⟨by rw [setRawData_nil], by rw [setRawData_nil]; rfl, ?_⟩
  intro E nmax tdim query knn radius max_nn param indices distance2
  exact ⟨searchKNN_data_nil _ _ _ _ _ _ _ _ hnil,
    searchRadius_data_nil _ _ _ _ _ _ _ _ hnil,
    searchHybrid_data_nil _ _ _ _ _ _ _ _ _ hnil,
    search_data_nil _ _ _ _ _ _ _ _ hnil⟩

/-- C5: on a successful `SearchRadius` call the engine receives the
squared radius `r*r` with `max_neighbors = NUM_MAX_NN`, and the result
tables are resized to total size `Q * NUM_MAX_NN`. -/
theorem c5_searchRadius_success_shape (E : Engine) (nmax : Int) (tdim : Nat)
    (query : List (List ℚ)) (radius : ℚ) (t : KDTreeFlann)
    (indices : List Int) (distance2 : List ℚ)
    (h1 : ¬(t.data_ = [] ∨ query = [] ∨ t.dataset_size_ ≤ 0))
    (h2 : tdim = t.dimension_) :
    (SearchRadius E nmax tdim query radius t indices distance2).ret =
      (E.radiusRet (query.map convert_float4) (radius * radius) nmax : Int) ∧
    (SearchRadius E nmax tdim query radius t indices distance2).indices =
      (List.range (query.length * nmax.toNat)).map
        (E.radiusIdx (query.map convert_float4) (radius * radius) nmax) ∧
    (SearchRadius E nmax tdim query radius t indices distance2).distance2 =
      (List.range (query.length * nmax.toNat)).map
        (E.radiusDist (query.map convert_float4) (radius * radius) nmax) ∧
    (SearchRadius E nmax tdim query radius t indices
        distance2).indices.length = query.length * nmax.toNat ∧
    (SearchRadius E nmax tdim query radius t indices
        distance2).distance2.length = query.length * nmax.toNat := by
  rw [searchRadius_success E nmax tdim query radius t indices distance2 h1 h2]
  exact ⟨rfl, rfl, rfl, by simp, by simp⟩

/-- C5, witness: a successful radius call on the concrete built index. -/
theorem c5_witness :
    ¬(tBuilt.data_ = [] ∨ ([[0, 0, 0]] : List (List ℚ)) = [] ∨
        tBuilt.dataset_size_ ≤ 0) ∧
    (SearchRadius Engine.triv 100 3 [[0, 0, 0]] 2 tBuilt [] []).indices.length =
      ([[0, 0, 0]] : List (List ℚ)).length * (100 : Int).toNat :=
  ⟨by decide,
   (c5_searchRadius_success_shape Engine.triv 100 3 [[0, 0, 0]] 2 tBuilt [] []
      (by decide) (by decide)).2.2.2.1⟩

/-- C6: the batch `SearchHybrid` returns the sentinel -1 exactly when the
padded buffer is empty or the dataset size is 0 (no index usable), the
query batch is empty, `max_nn` is negative, or the query dimension
mismatches the index dimension; otherwise the result tables are resized to
total size `Q * max_nn` and the engine receives the squared radius `r*r`
with the neighbor cap `max_nn`. -/
theorem c6_searchHybrid_sentinel_iff (E : Engine) (nmax : Int) (tdim : Nat)
    (query : List (List ℚ)) (radius : ℚ) (max_nn : Int) (t : KDTreeFlann)
    (indices : List Int) (distance2 : List ℚ) :
    ((SearchHybrid E nmax tdim query radius max_nn t indices distance2).ret = -1 ↔
      (t.data_ = [] ∨ query = [] ∨ t.dataset_size_ ≤ 0 ∨ max_nn < 0 ∨
        tdim ≠ t.dimension_)) ∧
    (¬(t.data_ = [] ∨ query = [] ∨ t.dataset_size_ ≤ 0 ∨ max_nn < 0 ∨
        tdim ≠ t.dimension_) →
      (SearchHybrid E nmax tdim query radius max_nn t indices
          distance2).indices.length = query.length * max_nn.toNat ∧
      (SearchHybrid E nmax tdim query radius max_nn t indices
          distance2).distance2.length = query.length * max_nn.toNat ∧
      (SearchHybrid E nmax tdim query radius max_nn t indices distance2).ret =
        (E.radiusRet (query.map convert_float4) (radius * radius) max_nn : Int)) := by
  by_cases h1 : t.data_ = [] ∨ query = [] ∨ t.dataset_size_ ≤ 0 ∨ max_nn < 0
  · have he : SearchHybrid E nmax tdim query radius max_nn t indices distance2 =
        ⟨-1, indices, distance2, false⟩ := by
      unfold SearchHybrid
      rw [if_pos h1]
    rw [he]
    exact ⟨iff_of_true rfl (by tauto), fun hn => absurd (by tauto) hn⟩
  · by_cases h2 : tdim ≠ t.dimension_
    · have he : SearchHybrid E nmax tdim query radius max_nn t indices
          distance2 = ⟨-1, indices, distance2, false⟩ := by
        unfold SearchHybrid
        rw [if_neg h1, if_pos h2]
      rw [he]
      exact ⟨iff_of_true rfl (by tauto), fun hn => absurd (by tauto) hn⟩
    · rw [searchHybrid_success E nmax tdim query radius max_nn t indices
        distance2 h1 (not_not.mp h2)]
      have hnn : ((E.radiusRet (query.map convert_float4) (radius * radius)
          max_nn : Nat) : Int) ≠ -1 := by
        omega
      exact ⟨⟨fun hc => absurd hc hnn, fun hd => absurd hd (by tauto)⟩,
        fun _ => ⟨by simp, by simp, rfl⟩⟩

/-- C6, witness: a successful hybrid call on the concrete built index. -/
theorem c6_witness :
    ¬(tBuilt.data_ = [] ∨ ([[0, 0, 0]] : List (List ℚ)) = [] ∨
        tBuilt.dataset_size_ ≤ 0 ∨ (2 : Int) < 0 ∨ 3 ≠ tBuilt.dimension_) ∧
    (SearchHybrid Engine.triv 100 3 [[0, 0, 0]] 2 2 tBuilt [] []).indices.length =
      ([[0, 0, 0]] : List (List ℚ)).length * (2 : Int).toNat :=
  ⟨by decide,
   ((c6_searchHybrid_sentinel_iff Engine.triv 100 3 [[0, 0, 0]] 2 2 tBuilt []
      []).2 (by decide)).1⟩

/-- C7: the generic `Search` dispatches on the parameter's tag — KNN tag
to `SearchKNN` with the parameter's `knn_`, Radius tag to `SearchRadius`
with its `radius_`, Hybrid tag to `SearchHybrid` with its `radius_` and
`max_nn_` — and any unrecognized tag returns the sentinel -1 untouched
buffers, engine unused. -/
theorem c7_search_dispatch (E : Engine) (nmax : Int) (tdim : Nat)
    (query : List (List ℚ)) (param : KDTreeSearchParam) (t : KDTreeFlann)
    (indices : List Int) (distance2 : List ℚ) :
    (param.search_type_ = SearchType.Knn →
      Search E nmax tdim query param t indices distance2 =
        SearchKNN E nmax tdim query param.knn_ t indices distance2) ∧
    (param.search_type_ = SearchType.Radius →
      Search E nmax tdim query param t indices distance2 =
        SearchRadius E nmax tdim query param.radius_ t indices distance2) ∧
    (param.search_type_ = SearchType.Hybrid →
      Search E nmax tdim query param t indices distance2 =
        SearchHybrid E nmax tdim query param.radius_ param.max_nn_ t indices
          distance2) ∧
    (param.search_type_ = SearchType.Unknown →
      Search E nmax tdim query param t indices distance2 =
        ⟨-1, indices, distance2, false⟩) := by
  refine ⟨fun h => ?_, fun h => ?_, fun h => ?_, fun h => ?_⟩ <;>
    simp [Search, h]

/-- C7, witness: dispatch of a concrete KNN-tagged parameter. -/
theorem c7_witness :
    Search Engine.triv 100 3 [[0, 0, 0]] ⟨SearchType.Knn, 1, 1, 1⟩ tBuilt [] [] =
      SearchKNN Engine.triv 100 3 [[0, 0, 0]] 1 tBuilt [] [] :=
  (c7_search_dispatch Engine.triv 100 3 [[0, 0, 0]] ⟨SearchType.Knn, 1, 1, 1⟩
    tBuilt [] []).1 rfl

/-- C8: `SetGeometry` forwards point clouds to a build over their
`points_` and triangle meshes to a build over their `vertices_`; every
other geometry kind returns false and leaves the object untouched. -/
theorem c8_setGeometry_dispatch (g : Geometry) (t : KDTreeFlann) :
    (g.geometry_type_ = GeometryType.PointCloud →
      SetGeometry g t = SetRawData 3 g.points_ t) ∧
    (g.geometry_type_ = GeometryType.TriangleMesh →
      SetGeometry g t = SetRawData 3 g.vertices_ t) ∧
    (g.geometry_type_ ≠ GeometryType.PointCloud →
      g.geometry_type_ ≠ GeometryType.TriangleMesh →
      SetGeometry g t = (false, t)) := by
  refine ⟨fun h => by simp [SetGeometry, h], fun h => by simp [SetGeometry, h],
    fun h1 h2 => ?_⟩
  unfold SetGeometry
  cases hg : g.geometry_type_ <;> simp_all

/-- C8, witness: an image geometry is rejected without touching the
index. -/
theorem c8_witness :
    SetGeometry ⟨GeometryType.Image, [], []⟩ KDTreeFlann.empty =
      (false, KDTreeFlann.empty) :=
  (c8_setGeometry_dispatch ⟨GeometryType.Image, [], []⟩ KDTreeFlann.empty).2.2
    (by decide) (by decide)

/-- C9: each single-query convenience overload returns exactly the result
code, indices and squared distances of the corresponding batch operation
applied to the one-element batch holding that point (with fresh empty
output buffers, as the overloads allocate). -/
theorem c9_single_query_refines_batch (E : Engine) (nmax : Int) (tdim : Nat)
    (q : List ℚ) (param : KDTreeSearchParam) (knn : Int) (radius : ℚ)
    (max_nn : Int) (t : KDTreeFlann) :
    Search_single E nmax tdim q param t =
      ((Search E nmax tdim [q] param t [] []).ret,
       (Search E nmax tdim [q] param t [] []).indices,
       (Search E nmax tdim [q] param t [] []).distance2) ∧
    SearchKNN_single E nmax tdim q knn t =
      ((SearchKNN E nmax tdim [q] knn t [] []).ret,
       (SearchKNN E nmax tdim [q] knn t [] []).indices,
       (SearchKNN E nmax tdim [q] knn t [] []).distance2) ∧
    SearchRadius_single E nmax tdim q radius t =
      ((SearchRadius E nmax tdim [q] radius t [] []).ret,
       (SearchRadius E nmax tdim [q] radius t [] []).indices,
       (SearchRadius E nmax tdim [q] radius t [] []).distance2) ∧
    SearchHybrid_single E nmax tdim q radius max_nn t =
      ((SearchHybrid E nmax tdim [q] radius max_nn t [] []).ret,
       (SearchHybrid E nmax tdim [q] radius max_nn t [] []).indices,
       (SearchHybrid E nmax tdim [q] radius max_nn t [] []).distance2) :=
  ⟨rfl, rfl, rfl, rfl⟩

/-- C10: `SearchRadius` is insensitive to the sign of the radius: the only
use of the radius is the squared value `r*r` handed to the engine, so
negating the radius changes nothing. -/
theorem c10_searchRadius_neg_radius (E : Engine) (nmax : Int) (tdim : Nat)
    (query : List (List ℚ)) (radius : ℚ) (t : KDTreeFlann)
    (indices : List Int) (distance2 : List ℚ) :
    SearchRadius E nmax tdim query (-radius) t indices distance2 =
      SearchRadius E nmax tdim query radius t indices distance2 := by
  unfold SearchRadius
  rw [neg_mul_neg]

end Cupoch
